import Mathlib

/-!
Shallow embedding of the state-keeper updates module of the repository
(`core/lib/zksync_core/src/state_keeper/updates/mod.rs`): the
`UpdatesManager` struct, its methods, and the two accumulator types it
composes.  The bodies of `MiniblockUpdates` (`miniblock_updates.rs`) and
`L1BatchUpdates` (`l1_batch_updates.rs`) are not part of the given source
tree; they are modelled from the specification (sections 3, 4.2 and 4.3),
as are the external collaborators (`StorageWritesDeduplicator`,
`get_batch_base_fee`, the miniblock hash).  Machine integers and opaque
payloads (hashes, addresses, metric aggregates) are modelled as `Nat`;
collections as `List`.  Rust `&mut self` methods become functions
returning the updated manager; `&self` methods are pure functions of the
manager.
-/

/-- Deterministic combination of two naturals (Cantor pairing), used by the
modelled hash and fee functions so they depend on all of their inputs. -/
def mix (a b : Nat) : Nat := (a + b) * (a + b + 1) / 2 + b

/-- Modelled from the spec: a per-transaction execution result.  Of its
contents only the storage logs are consumed by this module (they are
forwarded to the deduplicator); they are kept abstract as a list of
opaque log values. -/
structure VmExecutionResultAndLogs where
  storage_logs : List Nat
deriving Repr, DecidableEq

/-- Modelled from the spec: a user transaction.  The module treats it as
opaque payload plus the encoded size it contributes to the open
miniblock's running encoding total. -/
structure Transaction where
  payload : Nat
  bootloader_encoding_size : Nat
deriving Repr, DecidableEq

/-- Parameters for opening the next miniblock (spec section 4.1,
`push_miniblock(params: \x7btimestamp, virtual_blocks\x7d)`). -/
structure MiniblockParams where
  timestamp : Nat
  virtual_blocks : Nat
deriving Repr, DecidableEq

/-- Modelled from the spec (section 3): one executed-transaction record of
a miniblock: transaction data (absent for a fictive transaction),
execution result, compressed bytecode list, call traces, per-tx gas count
and per-tx metrics. -/
structure TxRecord where
  payload : Option Nat
  result : VmExecutionResultAndLogs
  compressed_bytecodes : List Nat
  call_traces : List Nat
  tx_l1_gas : Nat
  tx_metrics : Nat
deriving Repr, DecidableEq

/-- Modelled from the spec (sections 3 and 4.2): the accumulator for the
currently open miniblock (`MiniblockUpdates` in `miniblock_updates.rs`,
absent from the given sources): ordered transaction records, three
running totals, and chain-linkage data. -/
structure MiniblockUpdates where
  executed_transactions : List TxRecord
  l1_gas_count : Nat
  block_execution_metrics : Nat
  txs_encoding_size : Nat
  timestamp : Nat
  number : Nat
  prev_block_hash : Nat
  virtual_blocks : Nat
  protocol_version : Nat
deriving Repr, DecidableEq

/-- Modelled from the spec: a fresh miniblock accumulator holds no
transactions and zero totals; linkage fields come from the caller.
Argument order follows the call sites in `mod.rs`. -/
def MiniblockUpdates.new (timestamp : Nat) (number : Nat)
    (prev_block_hash : Nat) (virtual_blocks : Nat)
    (protocol_version : Nat) : MiniblockUpdates :=
  { executed_transactions := []
    l1_gas_count := 0
    block_execution_metrics := 0
    txs_encoding_size := 0
    timestamp
    number
    prev_block_hash
    virtual_blocks
    protocol_version }

/-- Modelled from the spec (section 4.2): appends one transaction record
and increases the three running totals by the caller-supplied amounts
(the encoded size comes from the transaction itself). -/
def MiniblockUpdates.extend_from_executed_transaction
    (self : MiniblockUpdates) (tx : Transaction)
    (tx_execution_result : VmExecutionResultAndLogs)
    (tx_l1_gas_this_tx : Nat) (execution_metrics : Nat)
    (compressed_bytecodes : List Nat) (call_traces : List Nat) :
    MiniblockUpdates :=
  { self with
    executed_transactions := self.executed_transactions ++
      [{ payload := some tx.payload
         result := tx_execution_result
         compressed_bytecodes
         call_traces
         tx_l1_gas := tx_l1_gas_this_tx
         tx_metrics := execution_metrics }]
    l1_gas_count := self.l1_gas_count + tx_l1_gas_this_tx
    block_execution_metrics := self.block_execution_metrics + execution_metrics
    txs_encoding_size := self.txs_encoding_size + tx.bootloader_encoding_size }

/-- Modelled from the spec (section 4.1): identical to
`extend_from_executed_transaction` but for a synthetic transaction that
carries no payload (and hence no encoded size). -/
def MiniblockUpdates.extend_from_fictive_transaction
    (self : MiniblockUpdates) (result : VmExecutionResultAndLogs)
    (l1_gas_count : Nat) (execution_metrics : Nat) : MiniblockUpdates :=
  { self with
    executed_transactions := self.executed_transactions ++
      [{ payload := none
         result
         compressed_bytecodes := []
         call_traces := []
         tx_l1_gas := l1_gas_count
         tx_metrics := execution_metrics }]
    l1_gas_count := self.l1_gas_count + l1_gas_count
    block_execution_metrics := self.block_execution_metrics + execution_metrics }

/-- Modelled from the spec (section 4.2): digest of one transaction
record, an input to the miniblock hash. -/
def txRecordDigest (r : TxRecord) : Nat :=
  mix (r.payload.getD 0)
    (mix (r.result.storage_logs.foldl mix 7) (mix r.tx_l1_gas r.tx_metrics))

/-- Modelled from the spec (section 4.2): the miniblock hash is a pure
deterministic function of the miniblock's number, timestamp, previous
hash and full ordered transaction sequence. -/
def MiniblockUpdates.get_miniblock_hash (self : MiniblockUpdates) : Nat :=
  mix self.number
    (mix self.timestamp
      (mix self.prev_block_hash
        ((self.executed_transactions.map txRecordDigest).foldl mix 3)))

/-- Modelled from the spec (sections 3 and 4.3): the accumulator for the
already sealed miniblocks of the open L1 batch (`L1BatchUpdates` in
`l1_batch_updates.rs`, absent from the given sources). -/
structure L1BatchUpdates where
  number : Nat
  executed_transactions : List TxRecord
  l1_gas_count : Nat
  block_execution_metrics : Nat
  txs_encoding_size : Nat
deriving Repr, DecidableEq

/-- Modelled from the spec: the batch accumulator starts empty. -/
def L1BatchUpdates.new (number : Nat) : L1BatchUpdates :=
  { number
    executed_transactions := []
    l1_gas_count := 0
    block_execution_metrics := 0
    txs_encoding_size := 0 }

/-- Modelled from the spec (section 4.3): folding a sealed miniblock
appends its transaction sequence, preserving order, and sums all three
running totals. -/
def L1BatchUpdates.extend_from_sealed_miniblock (self : L1BatchUpdates)
    (miniblock_updates : MiniblockUpdates) : L1BatchUpdates :=
  { self with
    executed_transactions :=
      self.executed_transactions ++ miniblock_updates.executed_transactions
    l1_gas_count := self.l1_gas_count + miniblock_updates.l1_gas_count
    block_execution_metrics :=
      self.block_execution_metrics + miniblock_updates.block_execution_metrics
    txs_encoding_size :=
      self.txs_encoding_size + miniblock_updates.txs_encoding_size }

/-- Modelled from the spec (section 4.4): the external deduplicator.  Its
internal algorithm is out of scope; the state records the sequence of
`apply` calls so that the ordering and completeness contract is
observable. -/
structure StorageWritesDeduplicator where
  applied : List (List Nat)
deriving Repr, DecidableEq

/-- Modelled from the spec: a fresh deduplicator has received nothing. -/
def StorageWritesDeduplicator.new : StorageWritesDeduplicator := ⟨[]⟩

/-- Modelled from the spec: `apply` receives one transaction's storage
logs; the model appends them in call order. -/
def StorageWritesDeduplicator.apply (self : StorageWritesDeduplicator)
    (storage_logs : List Nat) : StorageWritesDeduplicator :=
  ⟨self.applied ++ [storage_logs]⟩

/-- First-miniblock parameters inside the batch environment
(`l1_batch_env.first_l2_block` in `mod.rs`). -/
structure L2BlockEnv where
  number : Nat
  timestamp : Nat
  prev_block_hash : Nat
  max_virtual_blocks_to_create : Nat
deriving Repr, DecidableEq

/-- Batch-open environment: the fields of `L1BatchEnv` read by
`UpdatesManager::new`. -/
structure L1BatchEnv where
  number : Nat
  timestamp : Nat
  fee_account : Nat
  fee_input : Nat
  first_l2_block : L2BlockEnv
deriving Repr, DecidableEq

/-- System environment: the fields of `SystemEnv` read by
`UpdatesManager::new` (protocol version and base contract hashes). -/
structure SystemEnv where
  version : Nat
  base_system_smart_contracts_hashes : Nat
deriving Repr, DecidableEq

/-- Modelled from the spec (section 4.1): the fee-model collaborator
`get_batch_base_fee`, an unspecified deterministic function of the batch
environment and the protocol version, invoked once at construction. -/
def get_batch_base_fee (l1_batch_env : L1BatchEnv)
    (protocol_version : Nat) : Nat :=
  mix l1_batch_env.fee_input protocol_version

/-- The cursor returned by `io_cursor` (`IoCursor` in `mod.rs`). -/
structure IoCursor where
  next_miniblock : Nat
  prev_miniblock_hash : Nat
  prev_miniblock_timestamp : Nat
  l1_batch : Nat
deriving Repr, DecidableEq

/-- `MiniblockSealCommand` from `mod.rs`, lines 168-182: the immutable
snapshot handed to the persistence collaborator. -/
structure MiniblockSealCommand where
  l1_batch_number : Nat
  miniblock : MiniblockUpdates
  first_tx_index : Nat
  fee_account_address : Nat
  fee_input : Nat
  base_fee_per_gas : Nat
  base_system_contracts_hashes : Nat
  protocol_version : Option Nat
  l2_erc20_bridge_addr : Nat
  pre_insert_txs : Bool
deriving Repr, DecidableEq

/-- `UpdatesManager` from `mod.rs`, lines 27-37. -/
structure UpdatesManager where
  batch_timestamp : Nat
  fee_account_address : Nat
  batch_fee_input : Nat
  base_fee_per_gas : Nat
  base_system_contract_hashes : Nat
  protocol_version : Nat
  l1_batch : L1BatchUpdates
  miniblock : MiniblockUpdates
  storage_writes_deduplicator : StorageWritesDeduplicator
deriving Repr, DecidableEq

/-- `UpdatesManager::new` (`mod.rs` lines 40-59). -/
def UpdatesManager.new (l1_batch_env : L1BatchEnv)
    (system_env : SystemEnv) : UpdatesManager :=
  let protocol_version := system_env.version
  { batch_timestamp := l1_batch_env.timestamp
    fee_account_address := l1_batch_env.fee_account
    batch_fee_input := l1_batch_env.fee_input
    base_fee_per_gas := get_batch_base_fee l1_batch_env protocol_version
    protocol_version
    base_system_contract_hashes := system_env.base_system_smart_contracts_hashes
    l1_batch := L1BatchUpdates.new l1_batch_env.number
    miniblock := MiniblockUpdates.new
      l1_batch_env.first_l2_block.timestamp
      l1_batch_env.first_l2_block.number
      l1_batch_env.first_l2_block.prev_block_hash
      l1_batch_env.first_l2_block.max_virtual_blocks_to_create
      protocol_version
    storage_writes_deduplicator := StorageWritesDeduplicator.new }

/-- `UpdatesManager::io_cursor` (`mod.rs` lines 69-76). -/
def UpdatesManager.io_cursor (self : UpdatesManager) : IoCursor :=
  { next_miniblock := self.miniblock.number + 1
    prev_miniblock_hash := self.miniblock.get_miniblock_hash
    prev_miniblock_timestamp := self.miniblock.timestamp
    l1_batch := self.l1_batch.number }

/-- `UpdatesManager::seal_miniblock_command` (`mod.rs` lines 78-95). -/
def UpdatesManager.seal_miniblock_command (self : UpdatesManager)
    (l2_erc20_bridge_addr : Nat) (pre_insert_txs : Bool) :
    MiniblockSealCommand :=
  { l1_batch_number := self.l1_batch.number
    miniblock := self.miniblock
    first_tx_index := self.l1_batch.executed_transactions.length
    fee_account_address := self.fee_account_address
    fee_input := self.batch_fee_input
    base_fee_per_gas := self.base_fee_per_gas
    base_system_contracts_hashes := self.base_system_contract_hashes
    protocol_version := some self.protocol_version
    l2_erc20_bridge_addr
    pre_insert_txs }

/-- State-passing view of the `seal_miniblock_command` call.  In Rust the
method takes `&self`; its embedding returns the command together with the
receiver the call leaves behind, which is the receiver itself. -/
def UpdatesManager.seal_miniblock_command_call (self : UpdatesManager)
    (l2_erc20_bridge_addr : Nat) (pre_insert_txs : Bool) :
    MiniblockSealCommand × UpdatesManager :=
  (self.seal_miniblock_command l2_erc20_bridge_addr pre_insert_txs, self)

/-- `UpdatesManager::extend_from_executed_transaction` (`mod.rs` lines
101-120): forwards the storage logs to the deduplicator and extends the
open miniblock. -/
def UpdatesManager.extend_from_executed_transaction (self : UpdatesManager)
    (tx : Transaction) (tx_execution_result : VmExecutionResultAndLogs)
    (compressed_bytecodes : List Nat) (tx_l1_gas_this_tx : Nat)
    (execution_metrics : Nat) (call_traces : List Nat) : UpdatesManager :=
  { self with
    storage_writes_deduplicator :=
      self.storage_writes_deduplicator.apply tx_execution_result.storage_logs
    miniblock := self.miniblock.extend_from_executed_transaction tx
      tx_execution_result tx_l1_gas_this_tx execution_metrics
      compressed_bytecodes call_traces }

/-- `UpdatesManager::extend_from_fictive_transaction` (`mod.rs` lines
122-132). -/
def UpdatesManager.extend_from_fictive_transaction (self : UpdatesManager)
    (result : VmExecutionResultAndLogs) (l1_gas_count : Nat)
    (execution_metrics : Nat) : UpdatesManager :=
  { self with
    storage_writes_deduplicator :=
      self.storage_writes_deduplicator.apply result.storage_logs
    miniblock := self.miniblock.extend_from_fictive_transaction result
      l1_gas_count execution_metrics }

/-- `UpdatesManager::push_miniblock` (`mod.rs` lines 136-147): opens a new
miniblock chained to the one being closed and folds the closed one into
the batch accumulator. -/
def UpdatesManager.push_miniblock (self : UpdatesManager)
    (miniblock_params : MiniblockParams) : UpdatesManager :=
  let new_miniblock_updates := MiniblockUpdates.new
    miniblock_params.timestamp (self.miniblock.number + 1)
    self.miniblock.get_miniblock_hash miniblock_params.virtual_blocks
    self.protocol_version
  let old_miniblock_updates := self.miniblock
  { self with
    miniblock := new_miniblock_updates
    l1_batch := self.l1_batch.extend_from_sealed_miniblock old_miniblock_updates }

/-- `UpdatesManager::pending_executed_transactions_len` (`mod.rs` lines
149-151). -/
def UpdatesManager.pending_executed_transactions_len
    (self : UpdatesManager) : Nat :=
  self.l1_batch.executed_transactions.length +
    self.miniblock.executed_transactions.length

/-- `UpdatesManager::pending_l1_gas_count` (`mod.rs` lines 153-155). -/
def UpdatesManager.pending_l1_gas_count (self : UpdatesManager) : Nat :=
  self.l1_batch.l1_gas_count + self.miniblock.l1_gas_count

/-- `UpdatesManager::pending_execution_metrics` (`mod.rs` lines 157-159). -/
def UpdatesManager.pending_execution_metrics (self : UpdatesManager) : Nat :=
  self.l1_batch.block_execution_metrics +
    self.miniblock.block_execution_metrics

/-- `UpdatesManager::pending_txs_encoding_size` (`mod.rs` lines 161-163). -/
def UpdatesManager.pending_txs_encoding_size (self : UpdatesManager) : Nat :=
  self.l1_batch.txs_encoding_size + self.miniblock.txs_encoding_size

/-- One driver-loop step against the manager: the three mutating calls and
the read-only seal-command call of `mod.rs`. -/
inductive StateKeeperOp where
  | execTx (tx : Transaction) (result : VmExecutionResultAndLogs)
      (compressed_bytecodes : List Nat) (gas : Nat) (metrics : Nat)
      (call_traces : List Nat)
  | fictiveTx (result : VmExecutionResultAndLogs) (gas : Nat) (metrics : Nat)
  | pushMiniblock (params : MiniblockParams)
  | sealCommand (l2_erc20_bridge_addr : Nat) (pre_insert_txs : Bool)
deriving Repr

/-- Effect of one driver-loop step on the manager.  `sealCommand` takes
`&self` in Rust and so leaves the manager as it is. -/
def applyOp (m : UpdatesManager) : StateKeeperOp → UpdatesManager
  | .execTx tx result compressed_bytecodes gas metrics call_traces =>
      m.extend_from_executed_transaction tx result compressed_bytecodes
        gas metrics call_traces
  | .fictiveTx result gas metrics =>
      m.extend_from_fictive_transaction result gas metrics
  | .pushMiniblock params => m.push_miniblock params
  | .sealCommand l2_erc20_bridge_addr pre_insert_txs =>
      (m.seal_miniblock_command_call l2_erc20_bridge_addr pre_insert_txs).2

/-- Effect of a sequence of driver-loop steps, first step first. -/
def applyOps (m : UpdatesManager) : List StateKeeperOp → UpdatesManager
  | [] => m
  | op :: ops => applyOps (applyOp m op) ops

/-- The open-miniblock states captured at each `pushMiniblock` of a trace,
in seal order: exactly the miniblocks folded into the batch. -/
def sealedMiniblocks (m : UpdatesManager) :
    List StateKeeperOp → List MiniblockUpdates
  | [] => []
  | .pushMiniblock params :: ops =>
      m.miniblock :: sealedMiniblocks (applyOp m (.pushMiniblock params)) ops
  | op :: ops => sealedMiniblocks (applyOp m op) ops

/-- Concatenation, in order, of the transaction sequences of a list of
miniblocks. -/
def concatTxs (mbs : List MiniblockUpdates) : List TxRecord :=
  mbs.foldr (fun mb acc => mb.executed_transactions ++ acc) []

/-- Number of transaction-applying steps (executed or fictive) in a trace. -/
def txOpCount : List StateKeeperOp → Nat
  | [] => 0
  | .execTx .. :: ops => txOpCount ops + 1
  | .fictiveTx .. :: ops => txOpCount ops + 1
  | _ :: ops => txOpCount ops

/-- A concrete batch environment for the baseline scenarios of spec
section 8. -/
def scenarioBatchEnv : L1BatchEnv :=
  { number := 1
    timestamp := 100
    fee_account := 11
    fee_input := 12
    first_l2_block := { number := 1, timestamp := 100, prev_block_hash := 5
                        max_virtual_blocks_to_create := 1 } }

/-- A concrete system environment for the baseline scenarios. -/
def scenarioSystemEnv : SystemEnv :=
  { version := 18, base_system_smart_contracts_hashes := 21 }

/-- A concrete execution result for the fictive-transaction scenario. -/
def scenarioFictiveResult : VmExecutionResultAndLogs :=
  { storage_logs := [42] }

/-- The extend operations and the seal-command call leave the batch
accumulator of the manager untouched; only a push changes it, by
appending the open miniblock's transactions.  Stated for one step of a
trace. -/
theorem applyOp_l1_batch_txs (m : UpdatesManager) (op : StateKeeperOp) :
    (applyOp m op).l1_batch.executed_transactions =
      match op with
      | .pushMiniblock _ =>
          m.l1_batch.executed_transactions ++ m.miniblock.executed_transactions
      | _ => m.l1_batch.executed_transactions := by
  cases op <;> rfl

/-- Along any trace, the batch accumulator's transaction sequence is the
initial sequence followed by the concatenation, in seal order, of the
sealed miniblocks' transaction sequences. -/
theorem applyOps_l1_batch_txs (ops : List StateKeeperOp)
    (m : UpdatesManager) :
    (applyOps m ops).l1_batch.executed_transactions =
      m.l1_batch.executed_transactions ++
        concatTxs (sealedMiniblocks m ops) := by
  induction ops generalizing m with
  | nil => simp [applyOps, sealedMiniblocks, concatTxs]
  | cons op ops ih =>
    cases op with
    | execTx tx result bc gas metrics ct =>
        rw [applyOps, ih]
        rfl
    | fictiveTx result gas metrics =>
        rw [applyOps, ih]
        rfl
    | pushMiniblock params =>
        rw [applyOps, ih]
        show ((m.push_miniblock params).l1_batch.executed_transactions) ++ _ = _
        simp [UpdatesManager.push_miniblock,
          L1BatchUpdates.extend_from_sealed_miniblock, sealedMiniblocks,
          concatTxs, List.append_assoc, applyOp]
    | sealCommand addr pre =>
        rw [applyOps, ih]
        rfl

/-- One trace step changes the pending transaction count by one for a
transaction-applying step and leaves it unchanged otherwise. -/
theorem applyOp_pending_len (m : UpdatesManager) (op : StateKeeperOp) :
    (applyOp m op).pending_executed_transactions_len =
      match op with
      | .execTx .. => m.pending_executed_transactions_len + 1
      | .fictiveTx .. => m.pending_executed_transactions_len + 1
      | _ => m.pending_executed_transactions_len := by
  cases op with
  | execTx tx result bc gas metrics ct =>
      simp [applyOp, UpdatesManager.extend_from_executed_transaction,
        MiniblockUpdates.extend_from_executed_transaction,
        UpdatesManager.pending_executed_transactions_len]
      omega
  | fictiveTx result gas metrics =>
      simp [applyOp, UpdatesManager.extend_from_fictive_transaction,
        MiniblockUpdates.extend_from_fictive_transaction,
        UpdatesManager.pending_executed_transactions_len]
      omega
  | pushMiniblock params =>
      simp [applyOp, UpdatesManager.push_miniblock,
        L1BatchUpdates.extend_from_sealed_miniblock, MiniblockUpdates.new,
        UpdatesManager.pending_executed_transactions_len]
  | sealCommand addr pre => rfl

/-- Along any trace, the pending transaction count grows by exactly the
number of transaction-applying steps: no transaction is lost or
duplicated. -/
theorem applyOps_pending_len (ops : List StateKeeperOp)
    (m : UpdatesManager) :
    (applyOps m ops).pending_executed_transactions_len =
      m.pending_executed_transactions_len + txOpCount ops := by
  induction ops generalizing m with
  | nil => rfl
  | cons op ops ih =>
    rw [applyOps, ih, applyOp_pending_len]
    cases op <;> simp [txOpCount] <;> omega

/-- A freshly constructed manager has an empty batch accumulator, an
empty open miniblock, and hence a pending transaction count of zero. -/
theorem new_manager_empty (env : L1BatchEnv) (sys : SystemEnv) :
    (UpdatesManager.new env sys).l1_batch.executed_transactions = [] ∧
    (UpdatesManager.new env sys).miniblock.executed_transactions = [] ∧
    (UpdatesManager.new env sys).pending_executed_transactions_len = 0 :=
  ⟨rfl, rfl, rfl⟩

/-- C1: for every sequence of extend and push operations, at every point
the pending accessors equal the sum of the batch accumulator's and the
open miniblock's corresponding totals: transaction count, gas count,
execution metrics and encoding size, with no double-count and no loss. -/
theorem pending_accessors_additive (m0 : UpdatesManager)
    (ops : List StateKeeperOp) :
    (applyOps m0 ops).pending_executed_transactions_len =
        (applyOps m0 ops).l1_batch.executed_transactions.length +
          (applyOps m0 ops).miniblock.executed_transactions.length ∧
    (applyOps m0 ops).pending_l1_gas_count =
        (applyOps m0 ops).l1_batch.l1_gas_count +
          (applyOps m0 ops).miniblock.l1_gas_count ∧
    (applyOps m0 ops).pending_execution_metrics =
        (applyOps m0 ops).l1_batch.block_execution_metrics +
          (applyOps m0 ops).miniblock.block_execution_metrics ∧
    (applyOps m0 ops).pending_txs_encoding_size =
        (applyOps m0 ops).l1_batch.txs_encoding_size +
          (applyOps m0 ops).miniblock.txs_encoding_size :=
  ⟨rfl, rfl, rfl, rfl⟩

/-- C2: for every manager state (the open miniblock may hold zero
transactions) and every params value, push_miniblock installs a new open
miniblock with number incremented, previous-hash equal to the hash of the
closed miniblock, timestamp and virtual blocks from params, and the
manager's protocol version; and it folds the closed miniblock into the
batch accumulator, appending its transactions and summing its three
totals. -/
theorem push_miniblock_chains_and_folds (m : UpdatesManager)
    (params : MiniblockParams) :
    (m.push_miniblock params).miniblock.number = m.miniblock.number + 1 ∧
    (m.push_miniblock params).miniblock.prev_block_hash =
        m.miniblock.get_miniblock_hash ∧
    (m.push_miniblock params).miniblock.timestamp = params.timestamp ∧
    (m.push_miniblock params).miniblock.virtual_blocks =
        params.virtual_blocks ∧
    (m.push_miniblock params).miniblock.protocol_version =
        m.protocol_version ∧
    (m.push_miniblock params).l1_batch.executed_transactions =
        m.l1_batch.executed_transactions ++
          m.miniblock.executed_transactions ∧
    (m.push_miniblock params).l1_batch.l1_gas_count =
        m.l1_batch.l1_gas_count + m.miniblock.l1_gas_count ∧
    (m.push_miniblock params).l1_batch.block_execution_metrics =
        m.l1_batch.block_execution_metrics +
          m.miniblock.block_execution_metrics ∧
    (m.push_miniblock params).l1_batch.txs_encoding_size =
        m.l1_batch.txs_encoding_size + m.miniblock.txs_encoding_size :=
  ⟨rfl, rfl, rfl, rfl, rfl, rfl, rfl, rfl, rfl⟩

/-- C3: for every trace from a freshly constructed manager, the batch
accumulator's transaction sequence equals the concatenation, in seal
order, of each sealed miniblock's own ordered transaction sequence; no
transaction is dropped, duplicated or reordered by folding. -/
theorem batch_txs_eq_concat_of_sealed (env : L1BatchEnv) (sys : SystemEnv)
    (ops : List StateKeeperOp) :
    (applyOps (UpdatesManager.new env sys) ops).l1_batch.executed_transactions
      = concatTxs (sealedMiniblocks (UpdatesManager.new env sys) ops) := by
  rw [applyOps_l1_batch_txs]
  rfl

/-- C4: immediately after push_miniblock the new open miniblock has zero
transactions and zero running totals, and the batch accumulator's
transaction count has grown by exactly the transaction count of the
previously open miniblock. -/
theorem push_miniblock_resets_open (m : UpdatesManager)
    (params : MiniblockParams) :
    (m.push_miniblock params).miniblock.executed_transactions = [] ∧
    (m.push_miniblock params).miniblock.l1_gas_count = 0 ∧
    (m.push_miniblock params).miniblock.block_execution_metrics = 0 ∧
    (m.push_miniblock params).miniblock.txs_encoding_size = 0 ∧
    (m.push_miniblock params).l1_batch.executed_transactions.length =
        m.l1_batch.executed_transactions.length +
          m.miniblock.executed_transactions.length := by
  refine ⟨rfl, rfl, rfl, rfl, ?_⟩
  simp [UpdatesManager.push_miniblock,
    L1BatchUpdates.extend_from_sealed_miniblock]

/-- C5: io_cursor returns the open miniblock's number plus one as the next
miniblock number, the hash of the open miniblock as the previous hash,
the open miniblock's timestamp as the previous timestamp, and the
manager's batch number. -/
theorem io_cursor_fields (m : UpdatesManager) :
    m.io_cursor.next_miniblock = m.miniblock.number + 1 ∧
    m.io_cursor.prev_miniblock_hash = m.miniblock.get_miniblock_hash ∧
    m.io_cursor.prev_miniblock_timestamp = m.miniblock.timestamp ∧
    m.io_cursor.l1_batch = m.l1_batch.number :=
  ⟨rfl, rfl, rfl, rfl⟩

/-- C6: seal_miniblock_command returns a command whose first_tx_index is
the batch accumulator's current transaction count and whose embedded
miniblock is a full copy of the open miniblock; on a fresh manager after
one fictive transaction the command has first_tx_index zero and an
embedded miniblock of length one. -/
theorem seal_miniblock_command_snapshot (m : UpdatesManager)
    (l2_erc20_bridge_addr : Nat) (pre_insert_txs : Bool) :
    (m.seal_miniblock_command l2_erc20_bridge_addr
        pre_insert_txs).first_tx_index =
      m.l1_batch.executed_transactions.length ∧
    (m.seal_miniblock_command l2_erc20_bridge_addr
        pre_insert_txs).miniblock = m.miniblock ∧
    (((UpdatesManager.new scenarioBatchEnv
          scenarioSystemEnv).extend_from_fictive_transaction
        scenarioFictiveResult 1 1).seal_miniblock_command 9
          false).first_tx_index = 0 ∧
    (((UpdatesManager.new scenarioBatchEnv
          scenarioSystemEnv).extend_from_fictive_transaction
        scenarioFictiveResult 1 1).seal_miniblock_command 9
          false).miniblock.executed_transactions.length = 1 :=
  ⟨rfl, rfl, rfl, rfl⟩

/-- C7: seal_miniblock_command is read-only with respect to manager state:
the state-passing view of the call returns the manager unchanged, and the
extend operations never change the batch accumulator, so push_miniblock
is the only operation that performs the fold. -/
theorem seal_miniblock_command_read_only (m : UpdatesManager)
    (l2_erc20_bridge_addr : Nat) (pre_insert_txs : Bool) :
    (m.seal_miniblock_command_call l2_erc20_bridge_addr
        pre_insert_txs).2 = m ∧
    (m.seal_miniblock_command_call l2_erc20_bridge_addr
        pre_insert_txs).1 =
      m.seal_miniblock_command l2_erc20_bridge_addr pre_insert_txs ∧
    (∀ tx result bc gas metrics ct,
      (m.extend_from_executed_transaction tx result bc gas
          metrics ct).l1_batch = m.l1_batch) ∧
    (∀ result gas metrics,
      (m.extend_from_fictive_transaction result gas
          metrics).l1_batch = m.l1_batch) :=
  ⟨rfl, rfl, fun _ _ _ _ _ _ => rfl, fun _ _ _ => rfl⟩

/-- C8: extend_from_executed_transaction forwards the result's storage
writes to the deduplicator, appends one transaction record to the open
miniblock and adds the supplied gas, metrics and encoded size to its
running totals, while the batch accumulator and every fixed field of the
manager stay unchanged. -/
theorem extend_from_executed_transaction_frame (m : UpdatesManager)
    (tx : Transaction) (result : VmExecutionResultAndLogs)
    (bc : List Nat) (gas : Nat) (metrics : Nat) (ct : List Nat) :
    (m.extend_from_executed_transaction tx result bc gas metrics
        ct).storage_writes_deduplicator.applied =
      m.storage_writes_deduplicator.applied ++ [result.storage_logs] ∧
    (m.extend_from_executed_transaction tx result bc gas metrics
        ct).miniblock.executed_transactions =
      m.miniblock.executed_transactions ++
        [{ payload := some tx.payload, result,
           compressed_bytecodes := bc, call_traces := ct,
           tx_l1_gas := gas, tx_metrics := metrics }] ∧
    (m.extend_from_executed_transaction tx result bc gas metrics
        ct).miniblock.l1_gas_count = m.miniblock.l1_gas_count + gas ∧
    (m.extend_from_executed_transaction tx result bc gas metrics
        ct).miniblock.block_execution_metrics =
      m.miniblock.block_execution_metrics + metrics ∧
    (m.extend_from_executed_transaction tx result bc gas metrics
        ct).miniblock.txs_encoding_size =
      m.miniblock.txs_encoding_size + tx.bootloader_encoding_size ∧
    (m.extend_from_executed_transaction tx result bc gas metrics
        ct).l1_batch = m.l1_batch ∧
    (m.extend_from_executed_transaction tx result bc gas metrics
        ct).batch_timestamp = m.batch_timestamp ∧
    (m.extend_from_executed_transaction tx result bc gas metrics
        ct).fee_account_address = m.fee_account_address ∧
    (m.extend_from_executed_transaction tx result bc gas metrics
        ct).batch_fee_input = m.batch_fee_input ∧
    (m.extend_from_executed_transaction tx result bc gas metrics
        ct).base_fee_per_gas = m.base_fee_per_gas ∧
    (m.extend_from_executed_transaction tx result bc gas metrics
        ct).base_system_contract_hashes = m.base_system_contract_hashes ∧
    (m.extend_from_executed_transaction tx result bc gas metrics
        ct).protocol_version = m.protocol_version :=
  ⟨rfl, rfl, rfl, rfl, rfl, rfl, rfl, rfl, rfl, rfl, rfl, rfl⟩

/-- C9: the contract violations the spec names cannot complete in any
execution: push_miniblock computes the chain link itself, so the new open
miniblock's previous-hash always equals the hash of the miniblock being
closed; the folded miniblock leaves the open slot (the new open miniblock
is empty) and each fold adds its transactions exactly once; and along any
trace from a fresh manager the pending transaction count equals the
number of transaction-applying steps, so no silent corruption of the
accumulators is reachable. -/
theorem invariant_violations_unreachable (env : L1BatchEnv)
    (sys : SystemEnv) (ops : List StateKeeperOp) (m : UpdatesManager)
    (params : MiniblockParams) :
    (m.push_miniblock params).miniblock.prev_block_hash =
        m.miniblock.get_miniblock_hash ∧
    (m.push_miniblock params).miniblock.executed_transactions = [] ∧
    (m.push_miniblock params).l1_batch.executed_transactions.length =
        m.l1_batch.executed_transactions.length +
          m.miniblock.executed_transactions.length ∧
    (applyOps (UpdatesManager.new env sys)
        ops).pending_executed_transactions_len = txOpCount ops := by
  refine ⟨rfl, rfl, ?_, ?_⟩
  · simp [UpdatesManager.push_miniblock,
      L1BatchUpdates.extend_from_sealed_miniblock]
  · rw [applyOps_pending_len]
    have h : (UpdatesManager.new env sys).pending_executed_transactions_len
        = 0 := rfl
    rw [h, Nat.zero_add]

/-- C10: the command returned by seal_miniblock_command always carries
some of the manager's protocol version in its protocol_version field; it
is never none. -/
theorem seal_command_protocol_version_some (m : UpdatesManager)
    (l2_erc20_bridge_addr : Nat) (pre_insert_txs : Bool) :
    (m.seal_miniblock_command l2_erc20_bridge_addr
        pre_insert_txs).protocol_version = some m.protocol_version :=
  rfl
